import Mathlib

/-!
Shallow embedding of `semantic_world/views/factories.py`: the procedural
furniture factories (containers, handles, doors, drawers, dressers, walls)
and the axis-aligned region algebra they compose.

Modelling conventions:
* Numeric quantities are rationals (`ℚ`); the source's float literals become
  exact rationals (`0.05 ↦ 1/20`, `0.75 ↦ 3/4`).
* Angles are recorded in degrees: the source's `np.pi / 2` becomes `90`.
* The external geometric-algebra engine (`random_events`) is modelled
  semantically, following its contract: a region (`Event`) is its membership
  predicate, boolean operations are pointwise, `marginal` is projection,
  `fill_missing_variables` is cylindrical extension, and `bounding_box` is
  characterised by the `Is*BoundingInterval` predicates.
* Python exceptions (`NotImplementedError`, `assert`, `ValueError`) become
  `Except FactoryError` results; the code after a raise is not modelled, as
  in the source it never runs.
* The engine's frame conversion `as_bounding_box_collection_at_origin`
  (applied to non-root bodies) is an external collaborator; it is passed to
  the factories as an explicit function argument `bboxAtOrigin`.
-/

/-- Three rationals (x, y, z): the bounding extent of a solid
(`Scale` from `geometry.py`). -/
structure Scale where
  x : ℚ
  y : ℚ
  z : ℚ
  deriving DecidableEq

/-- A plain 3-vector of rationals (translations, joint axes). -/
structure Vec3 where
  x : ℚ
  y : ℚ
  z : ℚ
  deriving DecidableEq

/-- A closed interval `[lo, hi]` on one spatial axis (`closed(lo, hi)` of the
interval algebra). -/
structure IntervalQ where
  lo : ℚ
  hi : ℚ
  deriving DecidableEq

/-- Membership in a closed interval. -/
def IntervalQ.mem (I : IntervalQ) (t : ℚ) : Prop :=
  I.lo ≤ t ∧ t ≤ I.hi

/-- A point of 3-d space, with coordinates on the spatial axes x, y, z. -/
structure Point3Q where
  x : ℚ
  y : ℚ
  z : ℚ

/-- A point of the y-z cross-section plane. -/
structure Point2Q where
  y : ℚ
  z : ℚ

/-- A 3-d region (an `Event` of the product algebra) modelled semantically by
its membership predicate. -/
abbrev Event3 := Point3Q → Prop

/-- A 2-d region over the y-z plane (an event marginalized onto y and z). -/
abbrev Event2 := Point2Q → Prop

/-- A `SimpleEvent` assigning one closed interval to each spatial axis: an
axis-aligned box. -/
structure SimpleEvent3 where
  x : IntervalQ
  y : IntervalQ
  z : IntervalQ
  deriving DecidableEq

/-- The region denoted by an axis-aligned box. -/
def SimpleEvent3.toEvent (b : SimpleEvent3) : Event3 :=
  fun p => b.x.mem p.x ∧ b.y.mem p.y ∧ b.z.mem p.z

/-- Union of regions (`|=` on events). -/
def Event3.union (a b : Event3) : Event3 := fun p => a p ∨ b p

/-- Difference of regions (`-` on events). -/
def Event3.diff (a b : Event3) : Event3 := fun p => a p ∧ ¬ b p

/-- Intersection of regions (`&` on events). -/
def Event3.inter (a b : Event3) : Event3 := fun p => a p ∧ b p

/-- Difference of 2-d regions. -/
def Event2.diff (a b : Event2) : Event2 := fun q => a q ∧ ¬ b q

/-- Source `marginal(SpatialVariables.yz)`: project a region onto the y-z plane,
dropping the x (depth) axis. -/
def Event3.marginalYZ (e : Event3) : Event2 := fun q => ∃ x, e ⟨x, q.y, q.z⟩

/-- Source `fill_missing_variables([SpatialVariables.x])`: reintroduce the x axis as
unconstrained. -/
def Event2.fillX (e : Event2) : Event3 := fun p => e ⟨p.y, p.z⟩

/-- A simple event carrying only an x interval, with y and z reintroduced as
unconstrained (`fill_missing_variables(SpatialVariables.yz)`): a depth slab. -/
def slabX (I : IntervalQ) : Event3 := fun p => I.mem p.x

/-- Contract of the engine's `bounding_box()` on the x axis: `I` encloses the
region's x coordinates and is contained in every interval that does
(smallest enclosing interval). -/
def IsXBoundingInterval (e : Event3) (I : IntervalQ) : Prop :=
  (∀ p, e p → I.mem p.x) ∧
    ∀ J : IntervalQ, (∀ p, e p → J.mem p.x) → J.lo ≤ I.lo ∧ I.hi ≤ J.hi

/-- Contract of the engine's `bounding_box()` on the y axis. -/
def IsYBoundingInterval (e : Event3) (I : IntervalQ) : Prop :=
  (∀ p, e p → I.mem p.y) ∧
    ∀ J : IntervalQ, (∀ p, e p → J.mem p.y) → J.lo ≤ I.lo ∧ I.hi ≤ J.hi

/-- Contract of the engine's `bounding_box()` on the z axis. -/
def IsZBoundingInterval (e : Event3) (I : IntervalQ) : Prop :=
  (∀ p, e p → I.mem p.z) ∧
    ∀ J : IntervalQ, (∀ p, e p → J.mem p.z) → J.lo ≤ I.lo ∧ I.hi ≤ J.hi

/-- The six symbolic directions (`Direction(IntEnum)`). -/
inductive Direction where
  | X
  | Y
  | Z
  | NEGATIVE_X
  | NEGATIVE_Y
  | NEGATIVE_Z
  deriving DecidableEq

/-- Python error outcomes raised by the factories. -/
inductive FactoryError where
  /-- Source `NotImplementedError` (Z-family handle directions on doors). -/
  | notImplemented
  /-- A failed Python `assert`. -/
  | assertionFailed
  /-- Source `ValueError` (handle body without a parent connection). -/
  | valueError
  deriving DecidableEq

/-- Source `event_from_scale`: the box centered at the origin with extent `scale`. -/
def event_from_scale (scale : Scale) : SimpleEvent3 :=
  ⟨⟨-scale.x / 2, scale.x / 2⟩, ⟨-scale.y / 2, scale.y / 2⟩, ⟨-scale.z / 2, scale.z / 2⟩⟩

/-- Source `np.sign` on rationals. -/
def npSign (q : ℚ) : ℚ :=
  if 0 < q then 1 else if q < 0 then -1 else 0

/-- Homogeneous transform, modelled as a rotation (as roll/pitch/yaw angles
in degrees; the source's `np.pi / 2` is `90`) plus a translation. -/
structure TransformationMatrixS where
  rpy : Vec3
  trans : Vec3
  deriving DecidableEq

/-- Source `TransformationMatrix.from_xyz_rpy`. -/
def from_xyz_rpy (x y z roll pitch yaw : ℚ) : TransformationMatrixS :=
  ⟨⟨roll, pitch, yaw⟩, ⟨x, y, z⟩⟩

/-- Source `TransformationMatrix.from_point_rotation_matrix` with the rotation left
at its default: the identity. -/
def from_point_rotation_matrix (pt : Vec3) : TransformationMatrixS :=
  ⟨⟨0, 0, 0⟩, pt⟩

/-- Source `to_position`: the translation column of a transform. -/
def TransformationMatrixS.to_position (t : TransformationMatrixS) : Vec3 :=
  t.trans

/-- A body: a named rigid solid whose collision geometry is a region.  A body
the source creates as bare `Body()` (no collision) carries the empty region. -/
structure BodyS where
  name : String
  region : Event3

/-- Source `ContainerFactory`: carves a hollow box with one open side. -/
structure ContainerFactory where
  name : String
  scale : Scale
  wall_thickness : ℚ
  direction : Direction

/-- Source `ContainerFactory.extend_inner_event_in_direction`: extend the inner box's
interval on the opening axis to reach the outer box's boundary on that side. -/
def ContainerFactory.extend_inner_event_in_direction (f : ContainerFactory)
    (inner_event : SimpleEvent3) (inner_scale : Scale) : SimpleEvent3 :=
  match f.direction with
  | .X => { inner_event with x := ⟨-inner_scale.x / 2, f.scale.x / 2⟩ }
  | .Y => { inner_event with y := ⟨-inner_scale.y / 2, f.scale.y / 2⟩ }
  | .Z => { inner_event with z := ⟨-inner_scale.z / 2, f.scale.z / 2⟩ }
  | .NEGATIVE_X => { inner_event with x := ⟨-f.scale.x / 2, inner_scale.x / 2⟩ }
  | .NEGATIVE_Y => { inner_event with y := ⟨-f.scale.y / 2, inner_scale.y / 2⟩ }
  | .NEGATIVE_Z => { inner_event with z := ⟨-f.scale.z / 2, inner_scale.z / 2⟩ }

/-- Source `ContainerFactory.create_container_event`: outer box minus the inner box
extended in the opening direction. -/
def ContainerFactory.create_container_event (f : ContainerFactory) : Event3 :=
  let outer_box := event_from_scale f.scale
  let inner_scale : Scale :=
    ⟨f.scale.x - f.wall_thickness, f.scale.y - f.wall_thickness, f.scale.z - f.wall_thickness⟩
  let inner_box :=
    f.extend_inner_event_in_direction (event_from_scale inner_scale) inner_scale
  outer_box.toEvent.diff inner_box.toEvent

/-- Source `ContainerFactory._create`: the root body of the container world, whose
collision region is the container event. -/
def ContainerFactory.create (f : ContainerFactory) : BodyS :=
  ⟨f.name, f.create_container_event⟩

/-- Source `HandleFactory`: carves a bracket-shaped pull. -/
structure HandleFactory where
  name : String
  scale : Scale
  thickness : ℚ

/-- Source `HandleFactory.create_outer_box_event`: the main body of the handle,
`[0, scale.x] × [-scale.y/2, scale.y/2] × [-scale.z/2, scale.z/2]`. -/
def HandleFactory.create_outer_box_event (f : HandleFactory) : SimpleEvent3 :=
  ⟨⟨0, f.scale.x⟩, ⟨-f.scale.y / 2, f.scale.y / 2⟩, ⟨-f.scale.z / 2, f.scale.z / 2⟩⟩

/-- Source `HandleFactory.create_inner_box_event`: the cutout, narrower on x and y by
`thickness` but spanning `[-scale.z, scale.z]` on z. -/
def HandleFactory.create_inner_box_event (f : HandleFactory) : SimpleEvent3 :=
  ⟨⟨0, f.scale.x - f.thickness⟩,
    ⟨-f.scale.y / 2 + f.thickness, f.scale.y / 2 - f.thickness⟩,
    ⟨-f.scale.z, f.scale.z⟩⟩

/-- Source `HandleFactory.create_handle_event`: outer box minus the inner cutout. -/
def HandleFactory.create_handle_event (f : HandleFactory) : Event3 :=
  f.create_outer_box_event.toEvent.diff f.create_inner_box_event.toEvent

/-- Source `HandleFactory._create`: the root body of the handle world. -/
def HandleFactory.create (f : HandleFactory) : BodyS :=
  ⟨f.name, f.create_handle_event⟩

/-- Modelled from the spec (§4.1): a direction selects which endpoint of the
shrunk interval is replaced by the corresponding endpoint of the full
interval. -/
def extend_interval_spec (d : Direction) (full shrunk : IntervalQ) : IntervalQ :=
  match d with
  | .X | .Y | .Z => ⟨shrunk.lo, full.hi⟩
  | .NEGATIVE_X | .NEGATIVE_Y | .NEGATIVE_Z => ⟨full.lo, shrunk.hi⟩

/-- Modelled from the spec (claim C4 wording, §4.2): the outer box at `scale`
centered at the origin minus the inner box at `scale - wall_thickness` per
axis whose interval on the opening axis is extended to the outer boundary on
the opening side. -/
def container_region_spec (scale : Scale) (wall_thickness : ℚ) (d : Direction) : Event3 :=
  let outer := event_from_scale scale
  let inner :=
    event_from_scale ⟨scale.x - wall_thickness, scale.y - wall_thickness, scale.z - wall_thickness⟩
  let innerExtended : SimpleEvent3 :=
    match d with
    | .X | .NEGATIVE_X => { inner with x := extend_interval_spec d outer.x inner.x }
    | .Y | .NEGATIVE_Y => { inner with y := extend_interval_spec d outer.y inner.y }
    | .Z | .NEGATIVE_Z => { inner with z := extend_interval_spec d outer.z inner.z }
  outer.toEvent.diff innerExtended.toEvent

/-- Emptiness of a handle region (used to state claim C8's failure at
non-positive thickness). -/
def handle_region_is_empty (f : HandleFactory) : Prop :=
  ∀ p, ¬ f.create_handle_event p

/-- Source `Vector3.X()`: the unit x axis. -/
def Vector3_X : Vec3 := ⟨1, 0, 0⟩

/-- Source `Vector3.Z()`: the unit z axis. -/
def Vector3_Z : Vec3 := ⟨0, 0, 1⟩

/-- Source `DoorFactory`: a pivoting panel with a handle. -/
structure DoorFactory where
  name : String
  scale : Scale
  handle_factory : HandleFactory
  handle_direction : Direction

/-- Source `DoorFactory.create_door_event`: a box at `scale` whose interval on the
axis matching `handle_direction` is replaced by a half-interval so the origin
sits at the pivot edge; Z-family directions raise `NotImplementedError`. -/
def DoorFactory.create_door_event (f : DoorFactory) : Except FactoryError SimpleEvent3 :=
  let x_interval : IntervalQ := ⟨-f.scale.x / 2, f.scale.x / 2⟩
  let y_interval : IntervalQ := ⟨-f.scale.y / 2, f.scale.y / 2⟩
  let z_interval : IntervalQ := ⟨-f.scale.z / 2, f.scale.z / 2⟩
  match f.handle_direction with
  | .X => .ok ⟨⟨0, f.scale.x⟩, y_interval, z_interval⟩
  | .Y => .ok ⟨x_interval, ⟨0, f.scale.y⟩, z_interval⟩
  | .Z => .error .notImplemented
  | .NEGATIVE_X => .ok ⟨⟨-f.scale.x, 0⟩, y_interval, z_interval⟩
  | .NEGATIVE_Y => .ok ⟨x_interval, ⟨-f.scale.y, 0⟩, z_interval⟩
  | .NEGATIVE_Z => .error .notImplemented

/-- Source `DoorFactory.create_door_T_handle`: position and orientation of the handle
relative to the door (`0.05 = 1/20`, `0.1 = 1/10`, `np.pi / 2 = 90` degrees);
Z-family directions raise `NotImplementedError`. -/
def DoorFactory.create_door_T_handle (f : DoorFactory) :
    Except FactoryError TransformationMatrixS :=
  match f.handle_direction with
  | .X => .ok (from_xyz_rpy (f.scale.x - 1/10) (1/20) 0 0 0 90)
  | .Y => .ok (from_xyz_rpy (1/20) (f.scale.y - 1/10) 0 0 0 0)
  | .Z => .error .notImplemented
  | .NEGATIVE_X => .ok (from_xyz_rpy (-(f.scale.x - 1/10)) (1/20) 0 0 0 90)
  | .NEGATIVE_Y => .ok (from_xyz_rpy (1/20) (-(f.scale.y - 1/10)) 0 0 0 0)
  | .NEGATIVE_Z => .error .notImplemented

/-- The `Door` view: the panel body, the handle body, and the origin of the
handle body's parent connection (the fixed door-to-handle connection). -/
structure DoorView where
  name : String
  body : BodyS
  handle : BodyS
  handle_parent_connection : Option TransformationMatrixS

/-- The world returned by `DoorFactory.create`: the door view, the raw door
box, the factory that produced it (recorded so statements can refer to the
requested scale and handle direction), and the bodies created, in creation
order. -/
structure DoorWorld where
  view : DoorView
  door_event : SimpleEvent3
  factory : DoorFactory
  bodies : List BodyS

/-- Source `DoorFactory._create`: carve the door event (raising for Z-family handle
directions before any body exists), create the panel body, create the handle
world, and fixed-attach the handle at `create_door_T_handle`. -/
def DoorFactory.create (f : DoorFactory) : Except FactoryError DoorWorld :=
  match f.create_door_event with
  | .error e => .error e
  | .ok door_event =>
    let body : BodyS := ⟨f.name, door_event.toEvent⟩
    let handle_body := f.handle_factory.create
    match f.create_door_T_handle with
    | .error e => .error e
    | .ok door_T_handle =>
      .ok ⟨⟨f.name, body, handle_body, some door_T_handle⟩, door_event, f,
        [body, handle_body]⟩

/-- Source `calculate_door_pivot_point`: place the pivot opposite the handle.  The
handle's position is read from its parent connection (raising `ValueError`
when absent); the result is built from the shifted translation alone, with
the default (identity) rotation. -/
def calculate_door_pivot_point (door_view : DoorView)
    (door_transform : TransformationMatrixS) (scale : Scale) :
    Except FactoryError TransformationMatrixS :=
  match door_view.handle_parent_connection with
  | none => .error .valueError
  | some parent_connection =>
    let handle_position := parent_connection.to_position
    let offset := -(npSign handle_position.y) * (scale.y / 2)
    let door_position : Vec3 :=
      ⟨door_transform.trans.x, door_transform.trans.y + offset, door_transform.trans.z⟩
    .ok (from_point_rotation_matrix door_position)

/-- Source `RevoluteConnection`: a revolute edge; `lower`/`upper` are the position
limits of its `DegreeOfFreedom`, in degrees. -/
structure RevoluteConnection where
  origin_expression : TransformationMatrixS
  multiplier : ℚ
  offset : ℚ
  axis : Vec3
  lower : ℚ
  upper : ℚ

/-- Source `PrismaticConnection`: a prismatic edge; `lower`/`upper` are the position
limits of its `DegreeOfFreedom`, in length units. -/
structure PrismaticConnection where
  origin_expression : TransformationMatrixS
  multiplier : ℚ
  offset : ℚ
  axis : Vec3
  lower : ℚ
  upper : ℚ

/-- Source `add_door_to_world`: create the door world, pick the angular limits from
the handle direction (`-np.pi/2 .. 0`, overridden to `0 .. np.pi/2` for the
NEGATIVE_X / NEGATIVE_Y directions; in degrees here), compute the pivot, and
merge under a revolute connection about the Z axis. -/
def add_door_to_world (door_factory : DoorFactory)
    (parent_T_door : TransformationMatrixS) :
    Except FactoryError (RevoluteConnection × DoorWorld) :=
  match door_factory.create with
  | .error e => .error e
  | .ok door_world =>
    let lowerPos : ℚ :=
      if door_factory.handle_direction = .NEGATIVE_X ∨
          door_factory.handle_direction = .NEGATIVE_Y then 0 else -90
    let upperPos : ℚ :=
      if door_factory.handle_direction = .NEGATIVE_X ∨
          door_factory.handle_direction = .NEGATIVE_Y then 90 else 0
    match calculate_door_pivot_point door_world.view parent_T_door door_factory.scale with
    | .error e => .error e
    | .ok pivot_point =>
      .ok (⟨pivot_point, 1, 0, Vector3_Z, lowerPos, upperPos⟩, door_world)

/-- Source `DoubleDoorFactory`: two mirrored half-width doors. -/
structure DoubleDoorFactory where
  name : String
  scale : Scale
  handle_factory : HandleFactory

/-- Source `one_door_scale`: half the double-door width. -/
def DoubleDoorFactory.one_door_scale (f : DoubleDoorFactory) : Scale :=
  ⟨f.scale.x, f.scale.y / 2, f.scale.z⟩

/-- Source `DoubleDoorFactory.create_door_factories`: one door factory per handle
direction in `[Y, NEGATIVE_Y]`, each with a fresh handle factory (the loop
over `enumerate([Y, NEGATIVE_Y])`, unrolled). -/
def DoubleDoorFactory.create_door_factories (f : DoubleDoorFactory) : List DoorFactory :=
  [{ name := f.name ++ "_0",
     scale := f.one_door_scale,
     handle_factory :=
       ⟨f.name ++ "_0_handle", f.handle_factory.scale, f.handle_factory.thickness⟩,
     handle_direction := .Y },
   { name := f.name ++ "_1",
     scale := f.one_door_scale,
     handle_factory :=
       ⟨f.name ++ "_1_handle", f.handle_factory.scale, f.handle_factory.thickness⟩,
     handle_direction := .NEGATIVE_Y }]

/-- The loop body of `DoubleDoorFactory.add_doors_to_world`: place each door
at `(one.x/2, ±one.y/2, one.z/2)` (negated y for the Y-handled door), attach
it, and bind it as `right_door` when its handle direction is Y, otherwise as
`left_door`. -/
def DoubleDoorFactory.add_doors_loop (f : DoubleDoorFactory) :
    List DoorFactory → Option (RevoluteConnection × DoorWorld) →
    Option (RevoluteConnection × DoorWorld) →
    Except FactoryError
      (Option (RevoluteConnection × DoorWorld) × Option (RevoluteConnection × DoorWorld))
  | [], left_door, right_door => .ok (left_door, right_door)
  | door_factory :: rest, left_door, right_door =>
    let y_direction : ℚ :=
      if door_factory.handle_direction = .Y then -(f.one_door_scale.y / 2)
      else f.one_door_scale.y / 2
    let parent_T_door := from_point_rotation_matrix
      ⟨f.one_door_scale.x / 2, y_direction, f.one_door_scale.z / 2⟩
    match add_door_to_world door_factory parent_T_door with
    | .error e => .error e
    | .ok door =>
      if door_factory.handle_direction = .Y then
        f.add_doors_loop rest left_door (some door)
      else
        f.add_doors_loop rest (some door) right_door

/-- The `DoubleDoor` view: left and right doors (with their revolute
connections) and the bodies of the world, in creation order (virtual root
first, then the doors as attached). -/
structure DoubleDoorView where
  left_door : RevoluteConnection × DoorWorld
  right_door : RevoluteConnection × DoorWorld
  bodies : List BodyS

/-- Source `DoubleDoorFactory._create`: a virtual root body (bare `Body()`, no
collision), the two door factories (asserted to be exactly two), both doors
attached, and both bindings asserted non-null. -/
def DoubleDoorFactory.create (f : DoubleDoorFactory) : Except FactoryError DoubleDoorView :=
  let door_factories := f.create_door_factories
  let double_door_body : BodyS := ⟨f.name, fun _ => False⟩
  if door_factories.length = 2 then
    match f.add_doors_loop door_factories none none with
    | .error e => .error e
    | .ok lr =>
      match lr.1, lr.2 with
      | some left_door, some right_door =>
        .ok ⟨left_door, right_door,
          double_door_body :: (right_door.2.bodies ++ left_door.2.bodies)⟩
      | _, _ => .error .assertionFailed
  else .error .assertionFailed

/-- Source `DrawerFactory`: a container with a handle on its front face. -/
structure DrawerFactory where
  name : String
  handle_factory : HandleFactory
  container_factory : ContainerFactory

/-- The world returned by `DrawerFactory.create`: container body, handle
body, the fixed drawer-to-handle transform, the factory (recorded so
statements can refer to the requested container scale), and the created
bodies in creation order. -/
structure DrawerWorld where
  container_body : BodyS
  handle_body : BodyS
  drawer_T_handle : TransformationMatrixS
  factory : DrawerFactory
  bodies : List BodyS

/-- Source `DrawerFactory._create`: container plus handle, fixed-attached at
`(scale.x / 2, 0, 0)`. -/
def DrawerFactory.create (f : DrawerFactory) : DrawerWorld :=
  let container_body := f.container_factory.create
  let handle_body := f.handle_factory.create
  let drawer_T_handle := from_xyz_rpy (f.container_factory.scale.x / 2) 0 0 0 0 0
  ⟨container_body, handle_body, drawer_T_handle, f, [container_body, handle_body]⟩

/-- Source `DresserFactory`: a container with drawers and doors. -/
structure DresserFactory where
  name : String
  container_factory : ContainerFactory
  drawers_factories : List DrawerFactory
  drawer_transforms : List TransformationMatrixS
  door_factories : List DoorFactory
  door_transforms : List TransformationMatrixS

/-- Source `DresserFactory.create_drawer_upper_lower_limits`: the drawer DOF position
limits, `lower = 0` and `upper = scale.x * 0.75`. -/
def DresserFactory.create_drawer_upper_lower_limits (drawer_factory : DrawerFactory) : ℚ × ℚ :=
  (0, drawer_factory.container_factory.scale.x * (3 / 4))

/-- Source `DresserFactory.add_drawers_to_world`: one prismatic connection per
(drawer factory, transform) pair of `zip`, with multiplier 1, offset 0, axis
X, and the limits above. -/
def DresserFactory.add_drawers_to_world (f : DresserFactory) :
    List (PrismaticConnection × DrawerWorld) :=
  (f.drawers_factories.zip f.drawer_transforms).map fun dt =>
    let drawer_world := dt.1.create
    let limits := DresserFactory.create_drawer_upper_lower_limits dt.1
    (⟨dt.2, 1, 0, Vector3_X, limits.1, limits.2⟩, drawer_world)

/-- The door loop of `DresserFactory.make_dresser_world`: attach each
(door factory, transform) pair of `zip` via `add_door_to_world`. -/
def DresserFactory.add_doors_loop :
    List (DoorFactory × TransformationMatrixS) →
    Except FactoryError (List (RevoluteConnection × DoorWorld))
  | [] => .ok []
  | (door_factory, parent_T_door) :: rest =>
    match add_door_to_world door_factory parent_T_door with
    | .error e => .error e
    | .ok door =>
      match DresserFactory.add_doors_loop rest with
      | .error e => .error e
      | .ok doors => .ok (door :: doors)

/-- Source `DresserFactory.subtract_bodies_from_container_footprint`: marginalize the
container event onto the y-z plane and subtract the y-z marginal of every
non-root body's bounding-box region expressed in the dresser's frame (the
engine's `as_bounding_box_collection_at_origin`, supplied as `bboxAtOrigin`;
the loop over `world.bodies` skips the root, so `bodies` holds exactly the
non-root bodies). -/
def DresserFactory.subtract_bodies_from_container_footprint
    (bboxAtOrigin : BodyS → Event3) (bodies : List BodyS)
    (container_event : Event3) : Event2 :=
  bodies.foldl (fun acc body => acc.diff ((bboxAtOrigin body).marginalYZ))
    container_event.marginalYZ

/-- Source `DresserFactory.fill_container_body`: fill the footprint back along x,
intersect with the depth slab (`bounding_box()[x]` of the container event,
supplied as `depth_interval`), and union into the container event. -/
def DresserFactory.fill_container_body (container_footprint : Event2)
    (container_event : Event3) (depth_interval : IntervalQ) : Event3 :=
  container_event.union (container_footprint.fillX.inter (slabX depth_interval))

/-- Source `DresserFactory.make_interior`: the footprint-subtract-then-refill pass
over the root body's region.  For the root body, the source's
`as_bounding_box_collection_at_origin` at the identity transform in its own
frame returns the region itself. -/
def DresserFactory.make_interior (bboxAtOrigin : BodyS → Event3)
    (root_region : Event3) (bodies : List BodyS) (depth_interval : IntervalQ) : Event3 :=
  DresserFactory.fill_container_body
    (DresserFactory.subtract_bodies_from_container_footprint bboxAtOrigin bodies root_region)
    root_region depth_interval

/-- The world returned by `DresserFactory.create`: the root (dresser) body's
final region, the attached doors and drawers, and the non-root bodies. -/
structure DresserWorld where
  root_region : Event3
  doors : List (RevoluteConnection × DoorWorld)
  drawers : List (PrismaticConnection × DrawerWorld)
  non_root_bodies : List BodyS

/-- Source `DresserFactory._create`: assert the drawer counts match, build the
container, attach doors and drawers (`make_dresser_world`), then carve the
interior (`make_interior`).  `bboxAtOrigin` and `depth_interval` model the
engine's frame conversion and `bounding_box()[x]` respectively. -/
def DresserFactory.create (bboxAtOrigin : BodyS → Event3) (f : DresserFactory)
    (depth_interval : IntervalQ) : Except FactoryError DresserWorld :=
  if f.drawers_factories.length = f.drawer_transforms.length then
    let container_event := f.container_factory.create_container_event
    match DresserFactory.add_doors_loop (f.door_factories.zip f.door_transforms) with
    | .error e => .error e
    | .ok doors =>
      let drawers := f.add_drawers_to_world
      let bodies :=
        (doors.map fun door => door.2.bodies).flatten ++
          (drawers.map fun drawer => drawer.2.bodies).flatten
      .ok ⟨DresserFactory.make_interior bboxAtOrigin container_event bodies depth_interval,
        doors, drawers, bodies⟩
  else .error .assertionFailed

/-- Source `EntryWayFactory`: a wall's child is either a single door factory or a
double door factory (the source dispatches on `isinstance`). -/
inductive EntryWayFactory where
  | door : DoorFactory → EntryWayFactory
  | double : DoubleDoorFactory → EntryWayFactory

/-- Source `WallFactory`: a flat panel with door and double-door cutouts. -/
structure WallFactory where
  name : String
  scale : Scale
  door_factories : List EntryWayFactory
  door_transforms : List TransformationMatrixS

/-- Source `WallFactory.create_wall_event`: the panel
`[-x/2, x/2] × [-y/2, y/2] × [0, z]` (floor-referenced on z). -/
def WallFactory.create_wall_event (f : WallFactory) : SimpleEvent3 :=
  ⟨⟨-f.scale.x / 2, f.scale.x / 2⟩, ⟨-f.scale.y / 2, f.scale.y / 2⟩, ⟨0, f.scale.z⟩⟩

/-- Source `WallFactory.get_door_transforms`: pivot placement for a single door
(via `calculate_door_pivot_point` on `doors[0]`), raw translation projected
to `z = 0` for a double door. -/
def WallFactory.get_door_transforms (doors : List DoorView)
    (door_factory : EntryWayFactory) (door_transform : TransformationMatrixS) :
    Except FactoryError TransformationMatrixS :=
  match door_factory with
  | .door df =>
    match doors with
    | d0 :: _ => calculate_door_pivot_point d0 door_transform df.scale
    | [] => .error .assertionFailed
  | .double _ =>
    let translation := door_transform.to_position
    .ok (from_point_rotation_matrix ⟨translation.x, translation.y, 0⟩)

/-- The per-door cut of `remove_doors_from_wall_event`: subtract the door
body's bounding-box region in the scratch world's root frame (the engine's
`as_bounding_box_collection_at_origin`, supplied as `bboxAtOrigin`),
marginalized onto the y-z plane and refilled along x. -/
def WallFactory.cut_door (bboxAtOrigin : BodyS → Event3)
    (wall_event : Event3) (door : DoorView) : Event3 :=
  wall_event.diff ((bboxAtOrigin door.body).marginalYZ.fillX)

/-- One iteration of the `remove_doors_from_wall_event` loop: create the door
(or double door) world, compute its placement, build the scratch world, then
assert — for single doors only — that the handle direction is Y or
NEGATIVE_Y, and subtract every door silhouette.  Returns the bodies created
during the iteration alongside the outcome, so that statements can refer to
what was built before a failure. -/
def WallFactory.remove_one_entry (bboxAtOrigin : BodyS → Event3)
    (entry : EntryWayFactory) (transform : TransformationMatrixS)
    (wall_event : Event3) : List BodyS × Except FactoryError Event3 :=
  match entry with
  | .door df =>
    match df.create with
    | .error e => ([], .error e)
    | .ok door_world =>
      let doors := [door_world.view]
      match WallFactory.get_door_transforms doors entry transform with
      | .error e => (door_world.bodies, .error e)
      | .ok _door_transform =>
        if df.handle_direction = .Y ∨ df.handle_direction = .NEGATIVE_Y then
          (door_world.bodies,
            .ok (doors.foldl (WallFactory.cut_door bboxAtOrigin) wall_event))
        else (door_world.bodies, .error .assertionFailed)
  | .double ddf =>
    match ddf.create with
    | .error e => ([], .error e)
    | .ok v =>
      let doors := [v.right_door.2.view, v.left_door.2.view]
      match WallFactory.get_door_transforms doors entry transform with
      | .error e => (v.bodies, .error e)
      | .ok _door_transform =>
        (v.bodies, .ok (doors.foldl (WallFactory.cut_door bboxAtOrigin) wall_event))

/-- The `remove_doors_from_wall_event` loop over the `zip` of factories and
transforms, accumulating the bodies created so far. -/
def WallFactory.remove_doors_loop (bboxAtOrigin : BodyS → Event3) :
    List (EntryWayFactory × TransformationMatrixS) → Event3 → List BodyS →
    List BodyS × Except FactoryError Event3
  | [], wall_event, log => (log, .ok wall_event)
  | (entry, transform) :: rest, wall_event, log =>
    match WallFactory.remove_one_entry bboxAtOrigin entry transform wall_event with
    | (built, .error e) => (log ++ built, .error e)
    | (built, .ok we2) =>
      WallFactory.remove_doors_loop bboxAtOrigin rest we2 (log ++ built)

/-- Source `WallFactory.remove_doors_from_wall_event`. -/
def WallFactory.remove_doors_from_wall_event (bboxAtOrigin : BodyS → Event3)
    (f : WallFactory) (wall_event : Event3) :
    List BodyS × Except FactoryError Event3 :=
  WallFactory.remove_doors_loop bboxAtOrigin (f.door_factories.zip f.door_transforms)
    wall_event []

/-- A door or double door attached to the live wall world. -/
inductive WallAttachment where
  | single : RevoluteConnection → DoorWorld → WallAttachment
  | double : TransformationMatrixS → DoubleDoorView → WallAttachment

/-- The `add_doors_and_double_doors_to_world` loop: single doors go through
`add_door_to_world`; double doors are created and fixed-attached at the raw
translation projected to `z = 0`. -/
def WallFactory.add_doors_loop :
    List (EntryWayFactory × TransformationMatrixS) →
    Except FactoryError (List WallAttachment)
  | [] => .ok []
  | (entry, transform) :: rest =>
    match entry with
    | .door df =>
      match add_door_to_world df transform with
      | .error e => .error e
      | .ok door =>
        match WallFactory.add_doors_loop rest with
        | .error e => .error e
        | .ok atts => .ok (.single door.1 door.2 :: atts)
    | .double ddf =>
      match ddf.create with
      | .error e => .error e
      | .ok v =>
        let translation := transform.to_position
        let projected := from_point_rotation_matrix ⟨translation.x, translation.y, 0⟩
        match WallFactory.add_doors_loop rest with
        | .error e => .error e
        | .ok atts => .ok (.double projected v :: atts)

/-- Source `WallFactory.add_doors_and_double_doors_to_world` over the `zip` of
factories and transforms. -/
def WallFactory.add_doors_and_double_doors_to_world (f : WallFactory) :
    Except FactoryError (List WallAttachment) :=
  WallFactory.add_doors_loop (f.door_factories.zip f.door_transforms)

/-- The world returned by `WallFactory.create`: the carved wall region and
the attached entryways. -/
structure WallWorld where
  wall_region : Event3
  attached : List WallAttachment

/-- Source `WallFactory._create`: build the wall event, carve the door cutouts
(`_create_wall_collision` / `remove_doors_from_wall_event`), then re-attach
the doors to the live wall world.  The first component records the bodies
created while computing the cutouts, in creation order. -/
def WallFactory.create (bboxAtOrigin : BodyS → Event3) (f : WallFactory) :
    List BodyS × Except FactoryError WallWorld :=
  let wall_event := f.create_wall_event.toEvent
  match WallFactory.remove_doors_from_wall_event bboxAtOrigin f wall_event with
  | (log, .error e) => (log, .error e)
  | (log, .ok carved) =>
    match WallFactory.add_doors_and_double_doors_to_world f with
    | .error e => (log, .error e)
    | .ok atts => (log, .ok ⟨carved, atts⟩)

/-- A wall entry that trips `remove_doors_from_wall_event`: a single door
factory whose handle direction is outside {Y, NEGATIVE_Y} (double doors are
never checked). -/
def is_bad_single : EntryWayFactory → Prop
  | .door df => df.handle_direction ≠ .Y ∧ df.handle_direction ≠ .NEGATIVE_Y
  | .double _ => False

/-- An instantiation of the engine's frame conversion where each body's
bounding-box region in the target frame is its own region (identity
placement); used to evaluate the factories at concrete inputs. -/
def bbox_id : BodyS → Event3 := fun b => b.region

/-- A concrete handle factory (the source's default scale and thickness). -/
def sample_handle_factory : HandleFactory :=
  ⟨"handle", ⟨1/20, 1/10, 1/50⟩, 1/100⟩

/-- A concrete container factory: unit cube, 5 cm walls, open in X. -/
def sample_container_factory : ContainerFactory :=
  ⟨"container", ⟨1, 1, 1⟩, 1/20, .X⟩

/-- A concrete drawer factory. -/
def sample_drawer_factory : DrawerFactory :=
  ⟨"drawer", sample_handle_factory, ⟨"drawer_container", ⟨1/2, 9/20, 9/50⟩, 1/100, .X⟩⟩

/-- A concrete door factory with the handle on the positive Y edge. -/
def y_door_factory : DoorFactory :=
  ⟨"door", ⟨3/100, 1, 2⟩, sample_handle_factory, .Y⟩

/-- A concrete door factory with handle direction NEGATIVE_X. -/
def negx_door_factory : DoorFactory :=
  ⟨"negx_door", ⟨3/100, 1, 2⟩, sample_handle_factory, .NEGATIVE_X⟩

/-- A concrete door factory with handle direction NEGATIVE_Z. -/
def negz_door_factory : DoorFactory :=
  ⟨"negz_door", ⟨3/100, 1, 2⟩, sample_handle_factory, .NEGATIVE_Z⟩

/-- A concrete double door factory. -/
def double_door_example : DoubleDoorFactory :=
  ⟨"double_door", ⟨3/100, 1, 2⟩, sample_handle_factory⟩

/-- The handle direction of the `left_door` produced by
`double_door_example.create` (`none` if creation fails). -/
def double_door_example_left_direction : Option Direction :=
  match double_door_example.create with
  | .ok v => some v.left_door.2.factory.handle_direction
  | .error _ => none

/-- The handle direction of the `right_door` produced by
`double_door_example.create` (`none` if creation fails). -/
def double_door_example_right_direction : Option Direction :=
  match double_door_example.create with
  | .ok v => some v.right_door.2.factory.handle_direction
  | .error _ => none

/-- The y translation of `negx_door_factory`'s handle relative to its door
(the handle position read by the pivot computation). -/
def negx_door_handle_y : Option ℚ :=
  match negx_door_factory.create_door_T_handle with
  | .ok t => some t.trans.y
  | .error _ => none

/-- The angular limits of the revolute connection created when
`negx_door_factory` is attached at the origin. -/
def negx_door_limits : Option (ℚ × ℚ) :=
  match add_door_to_world negx_door_factory (from_point_rotation_matrix ⟨0, 0, 0⟩) with
  | .ok cw => some (cw.1.lower, cw.1.upper)
  | .error _ => none

/-- A concrete wall hosting one NEGATIVE_X single door. -/
def negx_wall_factory : WallFactory :=
  ⟨"wall", ⟨1/10, 4, 3⟩, [.door negx_door_factory],
    [from_point_rotation_matrix ⟨0, 0, 0⟩]⟩

/-- The outcome of creating `negx_wall_factory` (build log and result). -/
def negx_wall_result : List BodyS × Except FactoryError WallWorld :=
  WallFactory.create bbox_id negx_wall_factory

/-- A concrete dresser with matching (empty) drawer lists and one paired
NEGATIVE_Z door. -/
def z_dresser_equal : DresserFactory :=
  ⟨"dresser", sample_container_factory, [], [],
    [negz_door_factory], [from_point_rotation_matrix ⟨0, 0, 0⟩]⟩

/-- The outcome of creating `z_dresser_equal`. -/
def z_dresser_equal_result : Except FactoryError DresserWorld :=
  DresserFactory.create bbox_id z_dresser_equal ⟨-1/2, 1/2⟩

/-- A concrete dresser whose door-factory and door-transform counts differ
(one paired Z-direction door, a second transform unpaired) with matching
(empty) drawer lists. -/
def z_dresser_mismatch : DresserFactory :=
  ⟨"dresser", sample_container_factory, [], [],
    [⟨"z_door", ⟨3/100, 1, 2⟩, sample_handle_factory, .Z⟩],
    [from_point_rotation_matrix ⟨0, 0, 0⟩, from_point_rotation_matrix ⟨0, 1, 0⟩]⟩

/-- The outcome of creating `z_dresser_mismatch`. -/
def z_dresser_mismatch_result : Except FactoryError DresserWorld :=
  DresserFactory.create bbox_id z_dresser_mismatch ⟨-1/2, 1/2⟩

/-- A concrete dresser with one drawer and no doors. -/
def drawer_dresser : DresserFactory :=
  ⟨"dresser", sample_container_factory, [sample_drawer_factory],
    [from_xyz_rpy 0 0 (1/4) 0 0 0], [], []⟩

/-- A concrete dresser with one drawer and a surplus drawer transform
(mismatched drawer counts). -/
def drawer_dresser_mismatch : DresserFactory :=
  ⟨"dresser", sample_container_factory, [sample_drawer_factory], [], [], []⟩

/-- A concrete dresser with one paired Y-direction door and one surplus door
transform. -/
def door_dresser_surplus : DresserFactory :=
  ⟨"dresser", sample_container_factory, [], [],
    [y_door_factory],
    [from_point_rotation_matrix ⟨0, 0, 0⟩, from_point_rotation_matrix ⟨0, 1, 0⟩]⟩

/-- A concrete wall with one paired Y-direction door and one surplus door
transform. -/
def y_wall_surplus : WallFactory :=
  ⟨"wall", ⟨1/10, 4, 3⟩, [.door y_door_factory],
    [from_point_rotation_matrix ⟨0, 0, 0⟩, from_point_rotation_matrix ⟨0, 1, 0⟩]⟩

/-- A door view with a recorded handle parent connection, used to evaluate
the pivot computation at a concrete input. -/
def sample_door_view : DoorView :=
  ⟨"door", ⟨"door", fun _ => False⟩, sample_handle_factory.create,
    some (from_xyz_rpy (1/20) (9/10) 0 0 0 0)⟩

/-- A concrete door transform with a nontrivial rotation component. -/
def c3_T0 : TransformationMatrixS := from_xyz_rpy 1 2 3 10 20 30

/-- The handle transform produced for `y_door_factory`. -/
def c3_t0 : TransformationMatrixS := from_xyz_rpy (1/20) (1 - 1/10) 0 0 0 0

/-- The x bounding interval of `sample_container_factory`'s region. -/
def c1_I : IntervalQ :=
  ⟨-sample_container_factory.scale.x / 2, sample_container_factory.scale.x / 2⟩

/-- The prismatic connection and drawer world `drawer_dresser` attaches. -/
def c7_pair : PrismaticConnection × DrawerWorld :=
  (⟨from_xyz_rpy 0 0 (1/4) 0 0 0, 1, 0, Vector3_X,
      (DresserFactory.create_drawer_upper_lower_limits sample_drawer_factory).1,
      (DresserFactory.create_drawer_upper_lower_limits sample_drawer_factory).2⟩,
    sample_drawer_factory.create)

/-- The number of doors attached by `door_dresser_surplus` (`none` on
failure). -/
def door_dresser_surplus_doors : Option ℕ :=
  match DresserFactory.create bbox_id door_dresser_surplus ⟨-1/2, 1/2⟩ with
  | .ok w => some w.doors.length
  | .error _ => none

/-- The number of entryways attached by `y_wall_surplus` (`none` on
failure). -/
def y_wall_surplus_attached : Option ℕ :=
  match (WallFactory.create bbox_id y_wall_surplus).2 with
  | .ok w => some w.attached.length
  | .error _ => none

/-- Both extreme corners of the outer box belong to the container region
whenever the scale is positive and the wall thickness is positive. -/
theorem container_corner_max_mem (f : ContainerFactory)
    (hx : 0 < f.scale.x) (hy : 0 < f.scale.y) (hz : 0 < f.scale.z)
    (hw : 0 < f.wall_thickness) :
    f.create_container_event ⟨f.scale.x / 2, f.scale.y / 2, f.scale.z / 2⟩ := by
  obtain ⟨nm, s, w, d⟩ := f
  simp only [ContainerFactory.create_container_event, Event3.diff, SimpleEvent3.toEvent,
    event_from_scale, IntervalQ.mem] at *
  constructor
  · refine ⟨⟨by linarith, by linarith⟩, ⟨by linarith, by linarith⟩, ⟨by linarith, by linarith⟩⟩
  · cases d <;>
      simp only [ContainerFactory.extend_inner_event_in_direction, IntervalQ.mem] <;>
      rintro ⟨⟨h1, h2⟩, ⟨h3, h4⟩, ⟨h5, h6⟩⟩ <;> linarith

/-- The opposite extreme corner also belongs to the container region. -/
theorem container_corner_min_mem (f : ContainerFactory)
    (hx : 0 < f.scale.x) (hy : 0 < f.scale.y) (hz : 0 < f.scale.z)
    (hw : 0 < f.wall_thickness) :
    f.create_container_event ⟨-f.scale.x / 2, -f.scale.y / 2, -f.scale.z / 2⟩ := by
  obtain ⟨nm, s, w, d⟩ := f
  simp only [ContainerFactory.create_container_event, Event3.diff, SimpleEvent3.toEvent,
    event_from_scale, IntervalQ.mem] at *
  constructor
  · refine ⟨⟨by linarith, by linarith⟩, ⟨by linarith, by linarith⟩, ⟨by linarith, by linarith⟩⟩
  · cases d <;>
      simp only [ContainerFactory.extend_inner_event_in_direction, IntervalQ.mem] <;>
      rintro ⟨⟨h1, h2⟩, ⟨h3, h4⟩, ⟨h5, h6⟩⟩ <;> linarith

/-- The container region is enclosed in the outer box. -/
theorem container_subset_outer (f : ContainerFactory) (p : Point3Q)
    (hp : f.create_container_event p) :
    (event_from_scale f.scale).toEvent p := hp.1

/-- The x-axis bounding interval of the container region is exactly
`[-scale.x/2, scale.x/2]`. -/
theorem container_bbox_x (f : ContainerFactory)
    (hx : 0 < f.scale.x) (hy : 0 < f.scale.y) (hz : 0 < f.scale.z)
    (hw : 0 < f.wall_thickness) :
    IsXBoundingInterval f.create_container_event ⟨-f.scale.x / 2, f.scale.x / 2⟩ := by
  constructor
  · intro p hp
    exact hp.1.1
  · intro J hJ
    have h1 := hJ _ (container_corner_max_mem f hx hy hz hw)
    have h2 := hJ _ (container_corner_min_mem f hx hy hz hw)
    exact ⟨h2.1, h1.2⟩

/-- The y-axis bounding interval of the container region is exactly
`[-scale.y/2, scale.y/2]`. -/
theorem container_bbox_y (f : ContainerFactory)
    (hx : 0 < f.scale.x) (hy : 0 < f.scale.y) (hz : 0 < f.scale.z)
    (hw : 0 < f.wall_thickness) :
    IsYBoundingInterval f.create_container_event ⟨-f.scale.y / 2, f.scale.y / 2⟩ := by
  constructor
  · intro p hp
    exact hp.1.2.1
  · intro J hJ
    have h1 := hJ _ (container_corner_max_mem f hx hy hz hw)
    have h2 := hJ _ (container_corner_min_mem f hx hy hz hw)
    exact ⟨h2.1, h1.2⟩

/-- The z-axis bounding interval of the container region is exactly
`[-scale.z/2, scale.z/2]`. -/
theorem container_bbox_z (f : ContainerFactory)
    (hx : 0 < f.scale.x) (hy : 0 < f.scale.y) (hz : 0 < f.scale.z)
    (hw : 0 < f.wall_thickness) :
    IsZBoundingInterval f.create_container_event ⟨-f.scale.z / 2, f.scale.z / 2⟩ := by
  constructor
  · intro p hp
    exact hp.1.2.2
  · intro J hJ
    have h1 := hJ _ (container_corner_max_mem f hx hy hz hw)
    have h2 := hJ _ (container_corner_min_mem f hx hy hz hw)
    exact ⟨h2.1, h1.2⟩

/-- The container event coincides pointwise with the spec's formula. -/
theorem container_eq_spec (f : ContainerFactory) (p : Point3Q) :
    f.create_container_event p ↔
      container_region_spec f.scale f.wall_thickness f.direction p := by
  obtain ⟨nm, s, w, d⟩ := f
  cases d <;> rfl

/-- C4: for every scale with all components positive, every wall thickness
strictly between 0 and the smallest scale component, and every one of the six
directions, the container region equals the outer box at `scale` minus the
inner box at `scale - wall_thickness` extended to the outer boundary on the
opening side, and its bounding box is exactly `scale`
(per-axis intervals `[-s/2, s/2]`). -/
theorem C4_container_region_and_bounding_box (f : ContainerFactory)
    (hx : 0 < f.scale.x) (hy : 0 < f.scale.y) (hz : 0 < f.scale.z)
    (hw0 : 0 < f.wall_thickness) (hwx : f.wall_thickness < f.scale.x)
    (hwy : f.wall_thickness < f.scale.y) (hwz : f.wall_thickness < f.scale.z) :
    (∀ p, f.create_container_event p ↔
      container_region_spec f.scale f.wall_thickness f.direction p) ∧
    IsXBoundingInterval f.create_container_event ⟨-f.scale.x / 2, f.scale.x / 2⟩ ∧
    IsYBoundingInterval f.create_container_event ⟨-f.scale.y / 2, f.scale.y / 2⟩ ∧
    IsZBoundingInterval f.create_container_event ⟨-f.scale.z / 2, f.scale.z / 2⟩ :=
  ⟨fun p => container_eq_spec f p, container_bbox_x f hx hy hz hw0,
    container_bbox_y f hx hy hz hw0, container_bbox_z f hx hy hz hw0⟩

/-- Witness for C4 at the concrete unit-cube container open in X. -/
theorem C4_witness :
    (0 < sample_container_factory.scale.x ∧ 0 < sample_container_factory.scale.y ∧
      0 < sample_container_factory.scale.z ∧ 0 < sample_container_factory.wall_thickness ∧
      sample_container_factory.wall_thickness < sample_container_factory.scale.x ∧
      sample_container_factory.wall_thickness < sample_container_factory.scale.y ∧
      sample_container_factory.wall_thickness < sample_container_factory.scale.z) ∧
    ((∀ p, sample_container_factory.create_container_event p ↔
        container_region_spec sample_container_factory.scale
          sample_container_factory.wall_thickness sample_container_factory.direction p) ∧
      IsXBoundingInterval sample_container_factory.create_container_event
        ⟨-sample_container_factory.scale.x / 2, sample_container_factory.scale.x / 2⟩ ∧
      IsYBoundingInterval sample_container_factory.create_container_event
        ⟨-sample_container_factory.scale.y / 2, sample_container_factory.scale.y / 2⟩ ∧
      IsZBoundingInterval sample_container_factory.create_container_event
        ⟨-sample_container_factory.scale.z / 2, sample_container_factory.scale.z / 2⟩) :=
  ⟨⟨by norm_num [sample_container_factory], by norm_num [sample_container_factory],
      by norm_num [sample_container_factory], by norm_num [sample_container_factory],
      by norm_num [sample_container_factory], by norm_num [sample_container_factory],
      by norm_num [sample_container_factory]⟩,
    C4_container_region_and_bounding_box sample_container_factory
      (by norm_num [sample_container_factory]) (by norm_num [sample_container_factory])
      (by norm_num [sample_container_factory]) (by norm_num [sample_container_factory])
      (by norm_num [sample_container_factory]) (by norm_num [sample_container_factory])
      (by norm_num [sample_container_factory])⟩

/-- C8 (amended): for every scale with all components positive and every
positive thickness, the handle region is nonempty and contained in
`[0, scale.x] × [-scale.y/2, scale.y/2] × [-scale.z/2, scale.z/2]`. -/
theorem C8_handle_region_nonempty_and_bounded (f : HandleFactory)
    (hx : 0 < f.scale.x) (hy : 0 < f.scale.y) (hz : 0 < f.scale.z)
    (ht : 0 < f.thickness) :
    (∃ p, f.create_handle_event p) ∧
    ∀ p, f.create_handle_event p →
      0 ≤ p.x ∧ p.x ≤ f.scale.x ∧ -(f.scale.y / 2) ≤ p.y ∧ p.y ≤ f.scale.y / 2 ∧
        -(f.scale.z / 2) ≤ p.z ∧ p.z ≤ f.scale.z / 2 := by
  constructor
  · refine ⟨⟨f.scale.x, 0, 0⟩, ?_, ?_⟩
    · simp only [HandleFactory.create_outer_box_event, SimpleEvent3.toEvent, IntervalQ.mem]
      refine ⟨⟨by linarith, by linarith⟩, ⟨by linarith, by linarith⟩, ⟨by linarith, by linarith⟩⟩
    · simp only [HandleFactory.create_inner_box_event, SimpleEvent3.toEvent, IntervalQ.mem]
      rintro ⟨⟨h1, h2⟩, -, -⟩
      linarith
  · intro p hp
    obtain ⟨houter, -⟩ := hp
    simp only [HandleFactory.create_outer_box_event, SimpleEvent3.toEvent,
      IntervalQ.mem] at houter
    obtain ⟨⟨h1, h2⟩, ⟨h3, h4⟩, ⟨h5, h6⟩⟩ := houter
    exact ⟨h1, h2, by linarith, by linarith, by linarith, by linarith⟩

/-- Witness for C8 at the source's default handle dimensions. -/
theorem C8_witness :
    (0 < sample_handle_factory.scale.x ∧ 0 < sample_handle_factory.scale.y ∧
      0 < sample_handle_factory.scale.z ∧ 0 < sample_handle_factory.thickness) ∧
    ((∃ p, sample_handle_factory.create_handle_event p) ∧
      ∀ p, sample_handle_factory.create_handle_event p →
        0 ≤ p.x ∧ p.x ≤ sample_handle_factory.scale.x ∧
          -(sample_handle_factory.scale.y / 2) ≤ p.y ∧
          p.y ≤ sample_handle_factory.scale.y / 2 ∧
          -(sample_handle_factory.scale.z / 2) ≤ p.z ∧
          p.z ≤ sample_handle_factory.scale.z / 2) :=
  ⟨⟨by norm_num [sample_handle_factory], by norm_num [sample_handle_factory],
      by norm_num [sample_handle_factory], by norm_num [sample_handle_factory]⟩,
    C8_handle_region_nonempty_and_bounded sample_handle_factory
      (by norm_num [sample_handle_factory]) (by norm_num [sample_handle_factory])
      (by norm_num [sample_handle_factory]) (by norm_num [sample_handle_factory])⟩

/-- C8 counterexample: at thickness 0 the inner cutout covers the whole outer
box, so the handle region at unit scale and thickness 0 is empty — the region
is not nonempty for every thickness. -/
theorem C8_counterexample : handle_region_is_empty ⟨"handle", ⟨1, 1, 1⟩, 0⟩ := by
  intro p hp
  simp only [handle_region_is_empty, HandleFactory.create_handle_event, Event3.diff,
    SimpleEvent3.toEvent, HandleFactory.create_outer_box_event,
    HandleFactory.create_inner_box_event, IntervalQ.mem] at hp
  obtain ⟨⟨⟨h1, h2⟩, ⟨h3, h4⟩, ⟨h5, h6⟩⟩, hinner⟩ := hp
  refine hinner ⟨⟨?_, ?_⟩, ⟨?_, ?_⟩, ⟨?_, ?_⟩⟩ <;> norm_num at * <;> linarith

/-- C5: a Z-family handle direction makes `DoorFactory.create` raise
`NotImplementedError` from `create_door_event`, before any body, handle or
view is built: the outcome is the error and no world is ever returned. -/
theorem C5_door_z_unsupported (f : DoorFactory)
    (h : f.handle_direction = .Z ∨ f.handle_direction = .NEGATIVE_Z) :
    f.create = .error .notImplemented ∧ ∀ w, f.create ≠ .ok w := by
  obtain ⟨nm, s, hf, d⟩ := f
  rcases h with h | h <;> subst h <;>
    exact ⟨rfl, fun w hw => Except.noConfusion hw⟩

/-- Witness for C5 at a concrete NEGATIVE_Z door factory. -/
theorem C5_witness :
    (negz_door_factory.handle_direction = .Z ∨
      negz_door_factory.handle_direction = .NEGATIVE_Z) ∧
    negz_door_factory.create = .error .notImplemented :=
  ⟨Or.inr rfl, (C5_door_z_unsupported negz_door_factory (Or.inr rfl)).1⟩

/-- Attaching a door succeeds for every non-Z handle direction. -/
theorem add_door_to_world_ok (f : DoorFactory) (T : TransformationMatrixS)
    (h1 : f.handle_direction ≠ .Z) (h2 : f.handle_direction ≠ .NEGATIVE_Z) :
    ∃ cw, add_door_to_world f T = .ok cw := by
  obtain ⟨nm, s, hf, d⟩ := f
  cases d
  case Z => exact absurd rfl h1
  case NEGATIVE_Z => exact absurd rfl h2
  all_goals exact ⟨_, rfl⟩

/-- C3 (amended): attaching a door whose handle transform is `t` yields a
revolute connection whose origin is the door translation shifted on y by
`-sign(t.y) * scale.y / 2` with identity rotation, whose axis is Z, and whose
angular limits are `[0, 90]` degrees exactly when the handle direction is
NEGATIVE_X or NEGATIVE_Y, and `[-90, 0]` degrees otherwise. -/
theorem C3_pivot_axis_and_limits (f : DoorFactory) (T : TransformationMatrixS)
    (t : TransformationMatrixS) (ht : f.create_door_T_handle = .ok t) :
    ∃ cw, add_door_to_world f T = .ok cw ∧
      cw.2.view.handle_parent_connection = some t ∧
      cw.1.origin_expression =
        from_point_rotation_matrix
          ⟨T.trans.x, T.trans.y + -(npSign t.trans.y) * (f.scale.y / 2), T.trans.z⟩ ∧
      cw.1.axis = Vector3_Z ∧
      ((f.handle_direction = .NEGATIVE_X ∨ f.handle_direction = .NEGATIVE_Y) →
        cw.1.lower = 0 ∧ cw.1.upper = 90) ∧
      (¬(f.handle_direction = .NEGATIVE_X ∨ f.handle_direction = .NEGATIVE_Y) →
        cw.1.lower = -90 ∧ cw.1.upper = 0) := by
  obtain ⟨nm, s, hf, d⟩ := f
  cases d <;> simp only [DoorFactory.create_door_T_handle] at ht
  case Z => exact Except.noConfusion ht
  case NEGATIVE_Z => exact Except.noConfusion ht
  case X =>
    injection ht with h
    subst h
    exact ⟨_, rfl, rfl, rfl, rfl, fun h => by simp at h, fun _ => ⟨rfl, rfl⟩⟩
  case Y =>
    injection ht with h
    subst h
    exact ⟨_, rfl, rfl, rfl, rfl, fun h => by simp at h, fun _ => ⟨rfl, rfl⟩⟩
  case NEGATIVE_X =>
    injection ht with h
    subst h
    exact ⟨_, rfl, rfl, rfl, rfl, fun _ => ⟨rfl, rfl⟩, fun h => absurd (Or.inl rfl) h⟩
  case NEGATIVE_Y =>
    injection ht with h
    subst h
    exact ⟨_, rfl, rfl, rfl, rfl, fun _ => ⟨rfl, rfl⟩, fun h => absurd (Or.inr rfl) h⟩

/-- Witness for C3 (amended) at the concrete Y-handled door. -/
theorem C3_witness :
    y_door_factory.create_door_T_handle = .ok c3_t0 ∧
    ∃ cw, add_door_to_world y_door_factory c3_T0 = .ok cw ∧
      cw.2.view.handle_parent_connection = some c3_t0 ∧
      cw.1.origin_expression =
        from_point_rotation_matrix
          ⟨c3_T0.trans.x,
            c3_T0.trans.y + -(npSign c3_t0.trans.y) * (y_door_factory.scale.y / 2),
            c3_T0.trans.z⟩ ∧
      cw.1.axis = Vector3_Z ∧
      ((y_door_factory.handle_direction = .NEGATIVE_X ∨
          y_door_factory.handle_direction = .NEGATIVE_Y) →
        cw.1.lower = 0 ∧ cw.1.upper = 90) ∧
      (¬(y_door_factory.handle_direction = .NEGATIVE_X ∨
          y_door_factory.handle_direction = .NEGATIVE_Y) →
        cw.1.lower = -90 ∧ cw.1.upper = 0) :=
  ⟨rfl, C3_pivot_axis_and_limits y_door_factory c3_T0 c3_t0 rfl⟩

/-- C3 counterexample: the concrete NEGATIVE_X door has its handle at
y = 1/20 > 0 (the positive y side), yet its angular limits are
`[0, 90]` degrees, not `[-90, 0]` as the claim predicts from the handle
side. -/
theorem C3_counterexample :
    negx_door_handle_y = some (1/20) ∧ (0 : ℚ) < 1/20 ∧
    negx_door_limits = some (0, 90) ∧
    some ((0 : ℚ), (90 : ℚ)) ≠ some ((-90 : ℚ), (0 : ℚ)) :=
  ⟨rfl, by norm_num, by decide, by norm_num⟩

/-- C9: `calculate_door_pivot_point` returns a transform whose rotation is
the identity, keeping only the input translation plus the y pivot offset
(applied in the parent frame); consequently every door attached through
`add_door_to_world` has a connection origin with identity rotation,
regardless of the requested orientation. -/
theorem C9_pivot_discards_rotation :
    (∀ (door_view : DoorView) (T : TransformationMatrixS) (scale : Scale)
        (conn : TransformationMatrixS),
      door_view.handle_parent_connection = some conn →
      calculate_door_pivot_point door_view T scale =
        .ok ⟨⟨0, 0, 0⟩,
          ⟨T.trans.x, T.trans.y + -(npSign conn.trans.y) * (scale.y / 2), T.trans.z⟩⟩) ∧
    ∀ (f : DoorFactory) (T : TransformationMatrixS) (cw : RevoluteConnection × DoorWorld),
      add_door_to_world f T = .ok cw → cw.1.origin_expression.rpy = ⟨0, 0, 0⟩ := by
  constructor
  · intro dv T scale conn hconn
    simp only [calculate_door_pivot_point, hconn]
    rfl
  · intro f T cw h
    obtain ⟨nm, s, hf, d⟩ := f
    cases d
    case Z => exact Except.noConfusion h
    case NEGATIVE_Z => exact Except.noConfusion h
    all_goals (injection h with h2; subst h2; rfl)

/-- Witness for C9 at a concrete door view and a transform with a nontrivial
rotation component. -/
theorem C9_witness :
    sample_door_view.handle_parent_connection =
      some (from_xyz_rpy (1/20) (9/10) 0 0 0 0) ∧
    calculate_door_pivot_point sample_door_view c3_T0 ⟨1/20, 1, 2⟩ =
      .ok ⟨⟨0, 0, 0⟩,
        ⟨c3_T0.trans.x,
          c3_T0.trans.y +
            -(npSign (from_xyz_rpy (1/20) (9/10) 0 0 0 0).trans.y) *
              ((Scale.mk (1/20) 1 2).y / 2),
          c3_T0.trans.z⟩⟩ :=
  ⟨rfl, C9_pivot_discards_rotation.1 sample_door_view c3_T0 ⟨1/20, 1, 2⟩
    (from_xyz_rpy (1/20) (9/10) 0 0 0 0) rfl⟩

/-- C2 (amended): every double door factory creates exactly two door
factories and yields exactly one left and one right door, where the left
door's handle direction is NEGATIVE_Y and the right door's is Y, each door's
width is `scale.y / 2`, and the two widths sum to the declared `scale.y`. -/
theorem C2_double_door_structure (f : DoubleDoorFactory) :
    f.create_door_factories.length = 2 ∧
    ∃ v, f.create = .ok v ∧
      v.left_door.2.factory.handle_direction = .NEGATIVE_Y ∧
      v.right_door.2.factory.handle_direction = .Y ∧
      v.left_door.2.factory.scale.y = f.scale.y / 2 ∧
      v.right_door.2.factory.scale.y = f.scale.y / 2 ∧
      v.left_door.2.door_event.y.hi - v.left_door.2.door_event.y.lo = f.scale.y / 2 ∧
      v.right_door.2.door_event.y.hi - v.right_door.2.door_event.y.lo = f.scale.y / 2 ∧
      v.left_door.2.door_event.y.hi - v.left_door.2.door_event.y.lo +
          (v.right_door.2.door_event.y.hi - v.right_door.2.door_event.y.lo) =
        f.scale.y :=
  ⟨rfl, _, rfl, rfl, rfl, rfl, rfl,
    show (0 : ℚ) - -(f.scale.y / 2) = f.scale.y / 2 from by ring,
    show f.scale.y / 2 - 0 = f.scale.y / 2 from by ring,
    show (0 : ℚ) - -(f.scale.y / 2) + (f.scale.y / 2 - 0) = f.scale.y from by ring⟩

/-- C2 counterexample: for the concrete double door, the door bound as
`left_door` has handle direction NEGATIVE_Y (and the right door has Y) — the
claim's assignment of +Y to the left door fails. -/
theorem C2_counterexample :
    double_door_example_left_direction = some .NEGATIVE_Y ∧
    double_door_example_right_direction = some .Y ∧
    some Direction.NEGATIVE_Y ≠ some Direction.Y :=
  ⟨by decide, by decide, by decide⟩

/-- Folding the per-body footprint subtraction equals subtracting every
body's marginal at once. -/
theorem foldl_diff_iff (g : BodyS → Event2) :
    ∀ (bodies : List BodyS) (F : Event2) (q : Point2Q),
      (bodies.foldl (fun acc b => acc.diff (g b)) F) q ↔
        F q ∧ ∀ b ∈ bodies, ¬ g b q := by
  intro bodies
  induction bodies with
  | nil => intro F q; simp
  | cons b bs ih =>
    intro F q
    rw [List.foldl_cons, ih]
    simp only [Event2.diff, List.mem_cons]
    constructor
    · rintro ⟨⟨hF, hnb⟩, hrest⟩
      refine ⟨hF, ?_⟩
      rintro b' (rfl | hb')
      · exact hnb
      · exact hrest b' hb'
    · rintro ⟨hF, hall⟩
      exact ⟨⟨hF, hall b (Or.inl rfl)⟩, fun b' hb' => hall b' (Or.inr hb')⟩

/-- The dresser door loop succeeds on every pair list whose factories avoid
Z-family handle directions, attaching one door per pair. -/
theorem dresser_add_doors_loop_ok :
    ∀ pairs : List (DoorFactory × TransformationMatrixS),
      (∀ pr ∈ pairs,
        pr.1.handle_direction ≠ .Z ∧ pr.1.handle_direction ≠ .NEGATIVE_Z) →
      ∃ ds, DresserFactory.add_doors_loop pairs = .ok ds ∧
        ds.length = pairs.length := by
  intro pairs
  induction pairs with
  | nil => intro _; exact ⟨[], rfl, rfl⟩
  | cons pr rest ih =>
    intro h
    obtain ⟨h1, h2⟩ := h pr (List.mem_cons_self pr rest)
    obtain ⟨cw, hcw⟩ := add_door_to_world_ok pr.1 pr.2 h1 h2
    obtain ⟨ds, hds, hlen⟩ := ih (fun pr' hpr' => h pr' (List.mem_cons_of_mem pr hpr'))
    refine ⟨cw :: ds, ?_, by simp [hlen]⟩
    obtain ⟨df, t⟩ := pr
    simp only [DresserFactory.add_doors_loop, hcw, hds]

/-- C1 (amended): for every dresser factory whose drawer-factory and
drawer-transform lists have equal length and whose paired door factories all
avoid Z-family handle directions, `create` returns a world whose root body's
final region is `E ∪ ((F − ⋃ F_b) filled on x ∩ S)`: `E` the container's
original region, `F` its y-z marginal, `F_b` the y-z marginals of the
bounding-box regions of the non-root bodies in the dresser's frame, and `S`
the slab over `E`'s bounding-box x interval. -/
theorem C1_dresser_interior (bboxAtOrigin : BodyS → Event3) (f : DresserFactory)
    (depth_interval : IntervalQ)
    (hlen : f.drawers_factories.length = f.drawer_transforms.length)
    (hdoors : ∀ pr ∈ f.door_factories.zip f.door_transforms,
      pr.1.handle_direction ≠ .Z ∧ pr.1.handle_direction ≠ .NEGATIVE_Z)
    (hdepth : IsXBoundingInterval f.container_factory.create_container_event
      depth_interval) :
    ∃ w, DresserFactory.create bboxAtOrigin f depth_interval = .ok w ∧
      ∀ p, w.root_region p ↔
        f.container_factory.create_container_event p ∨
          ((∃ x0, f.container_factory.create_container_event ⟨x0, p.y, p.z⟩) ∧
            (∀ b ∈ w.non_root_bodies, ¬ ∃ x0, bboxAtOrigin b ⟨x0, p.y, p.z⟩) ∧
            depth_interval.mem p.x) := by
  obtain ⟨ds, hds, -⟩ :=
    dresser_add_doors_loop_ok (f.door_factories.zip f.door_transforms) hdoors
  have hcreate : DresserFactory.create bboxAtOrigin f depth_interval =
      .ok ⟨DresserFactory.make_interior bboxAtOrigin
            f.container_factory.create_container_event
            ((ds.map fun door => door.2.bodies).flatten ++
              (f.add_drawers_to_world.map fun drawer => drawer.2.bodies).flatten)
            depth_interval,
          ds, f.add_drawers_to_world,
          (ds.map fun door => door.2.bodies).flatten ++
            (f.add_drawers_to_world.map fun drawer => drawer.2.bodies).flatten⟩ := by
    simp only [DresserFactory.create]
    rw [if_pos hlen, hds]
  refine ⟨_, hcreate, ?_⟩
  intro p
  simp only [DresserFactory.make_interior, DresserFactory.fill_container_body,
    DresserFactory.subtract_bodies_from_container_footprint, Event3.union,
    Event3.inter, Event2.fillX, slabX]
  rw [foldl_diff_iff]
  simp only [Event3.marginalYZ]
  tauto

/-- C1 counterexample: a dresser whose drawer lists match but whose single
paired door has a NEGATIVE_Z handle direction raises `NotImplementedError`
instead of returning a world. -/
theorem C1_counterexample :
    z_dresser_equal.drawers_factories.length =
      z_dresser_equal.drawer_transforms.length ∧
    z_dresser_equal_result = .error .notImplemented :=
  ⟨rfl, rfl⟩

/-- C7: every drawer attached by the dresser gets a prismatic connection with
multiplier 1, offset 0, axis X, and DOF position limits
`[0, 0.75 × (drawer container scale.x)]`. -/
theorem C7_drawer_prismatic_limits (f : DresserFactory)
    (c : PrismaticConnection) (dw : DrawerWorld)
    (h : (c, dw) ∈ f.add_drawers_to_world) :
    c.multiplier = 1 ∧ c.offset = 0 ∧ c.axis = Vector3_X ∧ c.lower = 0 ∧
      c.upper = dw.factory.container_factory.scale.x * (3 / 4) := by
  simp only [DresserFactory.add_drawers_to_world, List.mem_map] at h
  obtain ⟨dt, -, heq⟩ := h
  injection heq with h1 h2
  subst h1
  subst h2
  exact ⟨rfl, rfl, rfl, rfl, rfl⟩

/-- Witness for C7 at the concrete single-drawer dresser. -/
theorem C7_witness :
    c7_pair ∈ drawer_dresser.add_drawers_to_world ∧
    (c7_pair.1.multiplier = 1 ∧ c7_pair.1.offset = 0 ∧
      c7_pair.1.axis = Vector3_X ∧ c7_pair.1.lower = 0 ∧
      c7_pair.1.upper = c7_pair.2.factory.container_factory.scale.x * (3 / 4)) :=
  ⟨List.Mem.head _,
    C7_drawer_prismatic_limits drawer_dresser c7_pair.1 c7_pair.2 (List.Mem.head _)⟩

/-- Witness for C1 at the concrete single-drawer dresser. -/
theorem C1_witness :
    drawer_dresser.drawers_factories.length =
      drawer_dresser.drawer_transforms.length ∧
    (∀ pr ∈ drawer_dresser.door_factories.zip drawer_dresser.door_transforms,
      pr.1.handle_direction ≠ .Z ∧ pr.1.handle_direction ≠ .NEGATIVE_Z) ∧
    IsXBoundingInterval drawer_dresser.container_factory.create_container_event
      c1_I ∧
    ∃ w, DresserFactory.create bbox_id drawer_dresser c1_I = .ok w ∧
      ∀ p, w.root_region p ↔
        drawer_dresser.container_factory.create_container_event p ∨
          ((∃ x0,
              drawer_dresser.container_factory.create_container_event
                ⟨x0, p.y, p.z⟩) ∧
            (∀ b ∈ w.non_root_bodies, ¬ ∃ x0, bbox_id b ⟨x0, p.y, p.z⟩) ∧
            c1_I.mem p.x) := by
  have hdoors :
      ∀ pr ∈ drawer_dresser.door_factories.zip drawer_dresser.door_transforms,
        pr.1.handle_direction ≠ .Z ∧ pr.1.handle_direction ≠ .NEGATIVE_Z := by
    intro pr hpr
    exact absurd hpr (List.not_mem_nil pr)
  have hbb : IsXBoundingInterval
      drawer_dresser.container_factory.create_container_event c1_I :=
    container_bbox_x sample_container_factory
      (by norm_num [sample_container_factory])
      (by norm_num [sample_container_factory])
      (by norm_num [sample_container_factory])
      (by norm_num [sample_container_factory])
  exact ⟨rfl, hdoors, hbb,
    C1_dresser_interior bbox_id drawer_dresser c1_I rfl hdoors hbb⟩

/-- Double door creation always succeeds. -/
theorem double_door_create_ok (f : DoubleDoorFactory) :
    ∃ v, f.create = .ok v :=
  ⟨_, rfl⟩

/-- Processing a good wall entry (a Y-family single door or any double door)
never fails. -/
theorem wall_remove_one_ok (σ : BodyS → Event3) (entry : EntryWayFactory)
    (t : TransformationMatrixS) (we : Event3) (h : ¬ is_bad_single entry) :
    ∃ built we2, WallFactory.remove_one_entry σ entry t we = (built, .ok we2) := by
  cases entry with
  | double ddf => exact ⟨_, _, rfl⟩
  | door df =>
    obtain ⟨nm, s, hf, d⟩ := df
    cases d
    case Y => exact ⟨_, _, rfl⟩
    case NEGATIVE_Y => exact ⟨_, _, rfl⟩
    all_goals exact absurd ⟨by simp, by simp⟩ h

/-- Processing a bad single door (handle direction outside {Y, NEGATIVE_Y})
always fails. -/
theorem wall_remove_one_bad (σ : BodyS → Event3) (entry : EntryWayFactory)
    (t : TransformationMatrixS) (we : Event3) (h : is_bad_single entry) :
    ∃ built e, WallFactory.remove_one_entry σ entry t we = (built, .error e) := by
  cases entry with
  | double ddf => exact h.elim
  | door df =>
    obtain ⟨nm, s, hf, d⟩ := df
    obtain ⟨h1, h2⟩ := h
    cases d
    case Y => exact absurd rfl h1
    case NEGATIVE_Y => exact absurd rfl h2
    all_goals exact ⟨_, _, rfl⟩

/-- The cutout loop succeeds when every paired entry is good. -/
theorem wall_remove_loop_ok (σ : BodyS → Event3) :
    ∀ (pairs : List (EntryWayFactory × TransformationMatrixS)) (we : Event3)
      (log : List BodyS),
      (∀ pr ∈ pairs, ¬ is_bad_single pr.1) →
      ∃ log2 we2,
        WallFactory.remove_doors_loop σ pairs we log = (log2, .ok we2) := by
  intro pairs
  induction pairs with
  | nil => intro we log _; exact ⟨log, we, rfl⟩
  | cons pr rest ih =>
    intro we log h
    obtain ⟨built, we2, h1⟩ :=
      wall_remove_one_ok σ pr.1 pr.2 we (h pr (List.mem_cons_self pr rest))
    obtain ⟨log2, we3, h2⟩ :=
      ih we2 (log ++ built) (fun pr' hpr' => h pr' (List.mem_cons_of_mem pr hpr'))
    refine ⟨log2, we3, ?_⟩
    obtain ⟨entry, t⟩ := pr
    simp only [WallFactory.remove_doors_loop, h1, h2]

/-- The cutout loop fails whenever some paired entry is a bad single door. -/
theorem wall_remove_loop_err (σ : BodyS → Event3) :
    ∀ (pairs : List (EntryWayFactory × TransformationMatrixS)) (we : Event3)
      (log : List BodyS),
      (∃ pr ∈ pairs, is_bad_single pr.1) →
      ∃ log2 e,
        WallFactory.remove_doors_loop σ pairs we log = (log2, .error e) := by
  intro pairs
  induction pairs with
  | nil =>
    rintro we log ⟨pr, hmem, -⟩
    exact absurd hmem (List.not_mem_nil pr)
  | cons pr rest ih =>
    rintro we log ⟨pr', hmem, hbad⟩
    by_cases hb : is_bad_single pr.1
    · obtain ⟨built, e, h1⟩ := wall_remove_one_bad σ pr.1 pr.2 we hb
      refine ⟨log ++ built, e, ?_⟩
      obtain ⟨entry, t⟩ := pr
      simp only [WallFactory.remove_doors_loop, h1]
    · obtain ⟨built, we2, h1⟩ := wall_remove_one_ok σ pr.1 pr.2 we hb
      have hmem' : pr' ∈ rest := by
        rcases List.mem_cons.mp hmem with rfl | hr
        · exact absurd hbad hb
        · exact hr
      obtain ⟨log2, e, h2⟩ := ih we2 (log ++ built) ⟨pr', hmem', hbad⟩
      refine ⟨log2, e, ?_⟩
      obtain ⟨entry, t⟩ := pr
      simp only [WallFactory.remove_doors_loop, h1, h2]

/-- The re-attachment loop succeeds on good entries and attaches one
entryway per pair. -/
theorem wall_add_loop_ok :
    ∀ pairs : List (EntryWayFactory × TransformationMatrixS),
      (∀ pr ∈ pairs, ¬ is_bad_single pr.1) →
      ∃ atts, WallFactory.add_doors_loop pairs = .ok atts ∧
        atts.length = pairs.length := by
  intro pairs
  induction pairs with
  | nil => intro _; exact ⟨[], rfl, rfl⟩
  | cons pr rest ih =>
    intro h
    have hgood := h pr (List.mem_cons_self pr rest)
    obtain ⟨atts, hatts, hlen⟩ := ih (fun pr' h' => h pr' (List.mem_cons_of_mem pr h'))
    obtain ⟨entry, t⟩ := pr
    cases entry with
    | door df =>
      obtain ⟨nm, s, hf, d⟩ := df
      cases d
      case X => exact absurd ⟨by simp, by simp⟩ hgood
      case Z => exact absurd ⟨by simp, by simp⟩ hgood
      case NEGATIVE_X => exact absurd ⟨by simp, by simp⟩ hgood
      case NEGATIVE_Z => exact absurd ⟨by simp, by simp⟩ hgood
      case Y =>
        obtain ⟨cw, hcw⟩ :=
          add_door_to_world_ok ⟨nm, s, hf, .Y⟩ t (by simp) (by simp)
        refine ⟨.single cw.1 cw.2 :: atts, ?_, by simp [hlen]⟩
        simp only [WallFactory.add_doors_loop, hcw, hatts]
      case NEGATIVE_Y =>
        obtain ⟨cw, hcw⟩ :=
          add_door_to_world_ok ⟨nm, s, hf, .NEGATIVE_Y⟩ t (by simp) (by simp)
        refine ⟨.single cw.1 cw.2 :: atts, ?_, by simp [hlen]⟩
        simp only [WallFactory.add_doors_loop, hcw, hatts]
    | double ddf =>
      obtain ⟨v, hv⟩ := double_door_create_ok ddf
      refine ⟨.double (from_point_rotation_matrix
        ⟨t.to_position.x, t.to_position.y, 0⟩) v :: atts, ?_, by simp [hlen]⟩
      simp only [WallFactory.add_doors_loop, hv, hatts]

/-- C6 (amended): a wall hosting a paired single door whose handle direction
is outside {Y, NEGATIVE_Y} fails — before the wall region is carved or any
door attached to the wall world — but not before the offending door's own
geometry is built: when the X-family door is the first paired entry, the
failure is the direction assertion and the build log already holds the
door's panel and handle bodies. -/
theorem C6_wall_bad_direction (σ : BodyS → Event3) (wf : WallFactory)
    (hbad : ∃ pr ∈ wf.door_factories.zip wf.door_transforms, is_bad_single pr.1) :
    (∃ log e, WallFactory.create σ wf = (log, .error e)) ∧
    ∀ (df : DoorFactory) (t : TransformationMatrixS)
      (rest_f : List EntryWayFactory) (rest_t : List TransformationMatrixS),
      wf.door_factories = .door df :: rest_f →
      wf.door_transforms = t :: rest_t →
      (df.handle_direction = .X ∨ df.handle_direction = .NEGATIVE_X) →
      (WallFactory.create σ wf).1 ≠ [] ∧
        (WallFactory.create σ wf).2 = .error .assertionFailed := by
  constructor
  · obtain ⟨log2, e, h1⟩ :=
      wall_remove_loop_err σ (wf.door_factories.zip wf.door_transforms)
        wf.create_wall_event.toEvent [] hbad
    refine ⟨log2, e, ?_⟩
    simp only [WallFactory.create, WallFactory.remove_doors_from_wall_event, h1]
  · intro df t rest_f rest_t hf ht hdir
    obtain ⟨wnm, ws, wdf, wdt⟩ := wf
    simp only at hf ht
    subst hf
    subst ht
    obtain ⟨nm, s, hfac, d⟩ := df
    rcases hdir with hd | hd <;> simp only at hd <;> subst hd <;>
      exact ⟨List.cons_ne_nil _ _, rfl⟩

/-- Witness for C6 at the concrete wall hosting one NEGATIVE_X door. -/
theorem C6_witness :
    is_bad_single (EntryWayFactory.door negx_door_factory) ∧
    (WallFactory.create bbox_id negx_wall_factory).1 ≠ [] ∧
    (WallFactory.create bbox_id negx_wall_factory).2 = .error .assertionFailed :=
  ⟨⟨by decide, by decide⟩,
    (C6_wall_bad_direction bbox_id negx_wall_factory
        ⟨(.door negx_door_factory, from_point_rotation_matrix ⟨0, 0, 0⟩),
          List.Mem.head _, by decide, by decide⟩).2
      negx_door_factory (from_point_rotation_matrix ⟨0, 0, 0⟩) [] [] rfl rfl
      (Or.inr rfl)⟩

/-- C6 counterexample: the concrete wall fails on its NEGATIVE_X door, yet at
that point the door's panel and handle bodies (two bodies) have already been
built — the failure is not before the door's geometry exists. -/
theorem C6_counterexample :
    negx_wall_result.2 = .error .assertionFailed ∧
    negx_wall_result.1.length = 2 ∧ (2 : ℕ) ≠ 0 :=
  ⟨rfl, rfl, by decide⟩

/-- C10 (amended): list-length mismatches between door factories and door
transforms never abort the dresser or the wall — the `zip` pairing silently
truncates to the shorter list and exactly `min` many entryways are attached
(provided every paired factory is itself constructible); only the
drawer-count mismatch in the dresser aborts, with an assertion error, before
any assembly. -/
theorem C10_zip_truncation (bboxAtOrigin : BodyS → Event3) :
    (∀ (f : DresserFactory) (depth_interval : IntervalQ),
      f.drawers_factories.length = f.drawer_transforms.length →
      (∀ pr ∈ f.door_factories.zip f.door_transforms,
        pr.1.handle_direction ≠ .Z ∧ pr.1.handle_direction ≠ .NEGATIVE_Z) →
      ∃ w, DresserFactory.create bboxAtOrigin f depth_interval = .ok w ∧
        w.doors.length = min f.door_factories.length f.door_transforms.length) ∧
    (∀ (f : DresserFactory) (depth_interval : IntervalQ),
      f.drawers_factories.length ≠ f.drawer_transforms.length →
      DresserFactory.create bboxAtOrigin f depth_interval = .error .assertionFailed) ∧
    ∀ wf : WallFactory,
      (∀ pr ∈ wf.door_factories.zip wf.door_transforms, ¬ is_bad_single pr.1) →
      ∃ log w, WallFactory.create bboxAtOrigin wf = (log, .ok w) ∧
        w.attached.length = min wf.door_factories.length wf.door_transforms.length := by
  refine ⟨?_, ?_, ?_⟩
  · intro f depth_interval hlen hdoors
    obtain ⟨ds, hds, hdslen⟩ :=
      dresser_add_doors_loop_ok (f.door_factories.zip f.door_transforms) hdoors
    have hcreate : DresserFactory.create bboxAtOrigin f depth_interval =
        .ok ⟨DresserFactory.make_interior bboxAtOrigin
              f.container_factory.create_container_event
              ((ds.map fun door => door.2.bodies).flatten ++
                (f.add_drawers_to_world.map fun drawer => drawer.2.bodies).flatten)
              depth_interval,
            ds, f.add_drawers_to_world,
            (ds.map fun door => door.2.bodies).flatten ++
              (f.add_drawers_to_world.map fun drawer => drawer.2.bodies).flatten⟩ := by
      simp only [DresserFactory.create]
      rw [if_pos hlen, hds]
    refine ⟨_, hcreate, ?_⟩
    simpa [List.length_zip] using hdslen
  · intro f depth_interval hlen
    simp only [DresserFactory.create]
    rw [if_neg hlen]
  · intro wf h
    obtain ⟨log2, we2, h1⟩ :=
      wall_remove_loop_ok bboxAtOrigin (wf.door_factories.zip wf.door_transforms)
        wf.create_wall_event.toEvent [] h
    obtain ⟨atts, h2, hlen⟩ :=
      wall_add_loop_ok (wf.door_factories.zip wf.door_transforms) h
    refine ⟨log2, ⟨we2, atts⟩, ?_, ?_⟩
    · simp only [WallFactory.create, WallFactory.remove_doors_from_wall_event, h1,
        WallFactory.add_doors_and_double_doors_to_world, h2]
    · simpa [List.length_zip] using hlen

/-- C10 counterexample: a dresser with mismatched door counts and a paired
Z-direction door fails outright (with `NotImplementedError`), so
`DresserFactory.create` does not unconditionally survive door-count
mismatches. -/
theorem C10_counterexample :
    z_dresser_mismatch.door_factories.length ≠
      z_dresser_mismatch.door_transforms.length ∧
    z_dresser_mismatch.drawers_factories.length =
      z_dresser_mismatch.drawer_transforms.length ∧
    z_dresser_mismatch_result = .error .notImplemented :=
  ⟨by decide, rfl, rfl⟩

/-- Witness for C10 at concrete surplus-transform inputs. -/
theorem C10_witness :
    door_dresser_surplus.drawers_factories.length =
      door_dresser_surplus.drawer_transforms.length ∧
    door_dresser_surplus_doors = some 1 ∧
    min door_dresser_surplus.door_factories.length
        door_dresser_surplus.door_transforms.length = 1 ∧
    drawer_dresser_mismatch.drawers_factories.length ≠
      drawer_dresser_mismatch.drawer_transforms.length ∧
    DresserFactory.create bbox_id drawer_dresser_mismatch ⟨-1/2, 1/2⟩ =
      .error .assertionFailed ∧
    y_wall_surplus_attached = some 1 := by
  refine ⟨rfl, ?_, by decide, by decide, ?_, ?_⟩
  · obtain ⟨w, hw, hl⟩ :=
      (C10_zip_truncation bbox_id).1 door_dresser_surplus ⟨-1/2, 1/2⟩ rfl
        (by intro pr hpr
            rw [List.mem_singleton.mp hpr]
            exact ⟨by decide, by decide⟩)
    simp only [door_dresser_surplus_doors, hw, hl]
    decide
  · exact (C10_zip_truncation bbox_id).2.1 drawer_dresser_mismatch ⟨-1/2, 1/2⟩
      (by decide)
  · obtain ⟨log, w, hw, hl⟩ :=
      (C10_zip_truncation bbox_id).2.2 y_wall_surplus
        (by intro pr hpr
            rw [List.mem_singleton.mp hpr]
            exact fun hb => hb.1 rfl)
    simp only [y_wall_surplus_attached, hw, hl]
    decide
